import Mathlib

/-!
Shallow embedding of the size-calculator HTTP service (`src/server.py`).

Modelling conventions:
* Python floats are modelled as rationals (`ℚ`); the comparisons and the
  arithmetic appearing in the source are exact on the values of interest.
* JSON request bodies are modelled as a record of optional fields
  (`data.get(key, 0)` becomes `Option.getD`); Python falsiness of a float
  (`not all([...])`) is equality with `0`.
* The SQLite store is a list of rows in insertion (rowid) order together
  with the next `AUTOINCREMENT` id.  `created_at` timestamps are modelled
  as naturals, ordered as the ISO-8601 strings the server stores.
* `ORDER BY created_at DESC` does not specify an order for rows whose
  `created_at` collide; the model resolves the query deterministically as
  a stable sort of the scan (insertion) order, which is the behaviour the
  plain table scan plus a stable sorter produces.  No secondary sort key
  is present in the query.
* A database failure while inserting is modelled by a boolean `dbOk`
  parameter: when it is false the `INSERT` raises, nothing is committed,
  and the handler answers with the 500 database-error envelope.
-/

namespace SizeCalc

/-- `calculate_size` from `src/server.py` (lines 53–82): two threshold
ladders keyed on the literal gender string `"female"`. -/
def calculate_size (gender : String) (bust waist : ℚ) : String × String :=
  if gender = "female" then
    (if bust < 80 then "XS"
     else if bust < 85 then "S"
     else if bust < 90 then "M"
     else if bust < 95 then "L"
     else if bust < 100 then "XL"
     else "XXL",
     if waist < 60 then "XS"
     else if waist < 65 then "S"
     else if waist < 70 then "M"
     else if waist < 75 then "L"
     else if waist < 80 then "XL"
     else "XXL")
  else
    (if bust < 88 then "S"
     else if bust < 92 then "M"
     else if bust < 96 then "L"
     else if bust < 100 then "XL"
     else "XXL",
     if waist < 72 then "S"
     else if waist < 76 then "M"
     else if waist < 80 then "L"
     else if waist < 85 then "XL"
     else "XXL")

/-- Top-size ladder transcribed from the spec's threshold table (spec §4.1),
for comparison with the implementation. -/
def specTopSize (gender : String) (bust : ℚ) : String :=
  if gender = "female" then
    if bust < 80 then "XS" else if bust < 85 then "S" else if bust < 90 then "M"
    else if bust < 95 then "L" else if bust < 100 then "XL" else "XXL"
  else
    if bust < 88 then "S" else if bust < 92 then "M" else if bust < 96 then "L"
    else if bust < 100 then "XL" else "XXL"

/-- Bottom-size ladder transcribed from the spec's threshold table (spec §4.1),
for comparison with the implementation. -/
def specBottomSize (gender : String) (waist : ℚ) : String :=
  if gender = "female" then
    if waist < 60 then "XS" else if waist < 65 then "S" else if waist < 70 then "M"
    else if waist < 75 then "L" else if waist < 80 then "XL" else "XXL"
  else
    if waist < 72 then "S" else if waist < 76 then "M" else if waist < 80 then "L"
    else if waist < 85 then "XL" else "XXL"

/-- Python's `round` to an integer: round half to even (banker's rounding),
on exact rational values. -/
def roundHalfEven (q : ℚ) : ℤ :=
  if q - ⌊q⌋ < 1/2 then ⌊q⌋
  else if 1/2 < q - ⌊q⌋ then ⌊q⌋ + 1
  else if ⌊q⌋ % 2 = 0 then ⌊q⌋ else ⌊q⌋ + 1

/-- Python's `round(x, 1)`: round to one decimal place, half to even. -/
def pyRound1 (q : ℚ) : ℚ := (roundHalfEven (10 * q) : ℚ) / 10

/-- The BMI computation from `src/server.py` line 141:
`round(weight / ((height / 100) ** 2), 1)`. -/
def bmi (height weight : ℚ) : ℚ := pyRound1 (weight / (height / 100) ^ 2)

/-- The JSON body of a `POST /api/calculate` request: each key may be absent.
Non-numeric values are rejected by `float(...)` before any of the modelled
logic runs, so fields hold rationals. -/
structure RequestData where
  gender : Option String
  height : Option ℚ
  weight : Option ℚ
  bust : Option ℚ
  waist : Option ℚ
  hips : Option ℚ
deriving DecidableEq, Repr

/-- One row of the `size_records` table.  Every column is `NOT NULL` in the
schema and the `INSERT` supplies all of them, so fields are total. -/
structure SizeRecord where
  id : Nat
  gender : String
  height : ℚ
  weight : ℚ
  bust : ℚ
  waist : ℚ
  hips : ℚ
  top_size : String
  bottom_size : String
  bmi : ℚ
  created_at : Nat
deriving DecidableEq, Repr

/-- The SQLite database: rows in insertion (rowid) order, plus the next
`AUTOINCREMENT` id. -/
structure Store where
  records : List SizeRecord
  nextId : Nat
deriving DecidableEq, Repr

/-- The freshly created (empty) `size_records` table. -/
def Store.empty : Store := ⟨[], 1⟩

/-- Responses of the `calculate` handler that the claims talk about:
success (HTTP 200), validation failure (HTTP 400), database failure
(HTTP 500). -/
inductive CalcResponse where
  | ok (top_size bottom_size : String) (bmi : ℚ) (record_id : Nat)
  | badRequest (error : String)
  | serverError (error : String)
deriving DecidableEq, Repr

/-- Whether a response is the success envelope. -/
def CalcResponse.isOk : CalcResponse → Bool
  | .ok _ _ _ _ => true
  | _ => false

/-- Whether a response is an error envelope (HTTP 400 or 500). -/
def CalcResponse.isError : CalcResponse → Bool
  | .ok _ _ _ _ => false
  | _ => true

/-- The `POST /api/calculate` handler (`src/server.py` lines 117–196):
extract fields with defaults, reject incomplete data (any of the five
measurements absent or zero), reject heights outside `[100, 250]`,
otherwise classify, compute BMI and insert a row timestamped `now`.
`dbOk` models whether the SQLite write succeeds. -/
def calculate (db : Store) (dbOk : Bool) (now : Nat) (data : RequestData) :
    CalcResponse × Store :=
  if data.height.getD 0 = 0 ∨ data.weight.getD 0 = 0 ∨ data.bust.getD 0 = 0 ∨
      data.waist.getD 0 = 0 ∨ data.hips.getD 0 = 0 then
    (.badRequest "数据不完整", db)
  else if data.height.getD 0 < 100 ∨ data.height.getD 0 > 250 then
    (.badRequest "身高数据不合理", db)
  else if dbOk then
    (.ok (calculate_size (data.gender.getD "female") (data.bust.getD 0) (data.waist.getD 0)).1
       (calculate_size (data.gender.getD "female") (data.bust.getD 0) (data.waist.getD 0)).2
       (bmi (data.height.getD 0) (data.weight.getD 0)) db.nextId,
     ⟨db.records ++
        [⟨db.nextId, data.gender.getD "female", data.height.getD 0, data.weight.getD 0,
          data.bust.getD 0, data.waist.getD 0, data.hips.getD 0,
          (calculate_size (data.gender.getD "female") (data.bust.getD 0) (data.waist.getD 0)).1,
          (calculate_size (data.gender.getD "female") (data.bust.getD 0) (data.waist.getD 0)).2,
          bmi (data.height.getD 0) (data.weight.getD 0), now⟩],
      db.nextId + 1⟩)
  else
    (.serverError "数据库错误", db)

/-- The sort key of `ORDER BY created_at DESC`: `a` may come before `b`
when `a.created_at ≥ b.created_at`. -/
def recGE (a b : SizeRecord) : Prop := b.created_at ≤ a.created_at

instance : DecidableRel recGE := fun a b => Nat.decLe b.created_at a.created_at

instance : IsTotal SizeRecord recGE :=
  ⟨fun a b => (Nat.le_total b.created_at a.created_at).imp id id⟩

instance : IsTrans SizeRecord recGE :=
  ⟨fun _ _ _ h1 h2 => Nat.le_trans h2 h1⟩

/-- The `GET /api/records` handler (`src/server.py` lines 198–236):
`SELECT ... ORDER BY created_at DESC LIMIT 20`, modelled as a stable sort
of the scan order by descending `created_at`, truncated to 20 rows. -/
def get_records (db : Store) : List SizeRecord :=
  (db.records.insertionSort recGE).take 20

/-- Database states reachable from the freshly initialised table by any
sequence of `POST /api/calculate` requests (`GET` handlers read only). -/
inductive Reachable : Store → Prop where
  | empty : Reachable Store.empty
  | step (db : Store) (dbOk : Bool) (now : Nat) (data : RequestData) :
      Reachable db → Reachable (calculate db dbOk now data).2

/-- The `record_id` reported by a success response, if any. -/
def CalcResponse.recordId : CalcResponse → Option Nat
  | .ok _ _ _ i => some i
  | _ => none

/-- A well-formed request used in concrete instantiations. -/
def demoData1 : RequestData := ⟨some "female", some 165, some 55, some 85, some 65, some 90⟩

/-- A second well-formed request used in concrete instantiations. -/
def demoData2 : RequestData := ⟨some "male", some 180, some 75, some 95, some 80, some 98⟩

/-- C1: `calculate_size` agrees with the spec's threshold tables on every
gender string and every bust/waist value: the female ladders when gender is
the literal `"female"`, the male ladders otherwise, all thresholds
upper-bound-exclusive with an open last band. -/
theorem calculate_size_matches_spec (gender : String) (bust waist : ℚ) :
    calculate_size gender bust waist = (specTopSize gender bust, specBottomSize gender waist) := by
  unfold calculate_size specTopSize specBottomSize
  split_ifs <;> rfl

/-- Rounding half to even always lands within half a unit of its argument. -/
theorem roundHalfEven_close (q : ℚ) : |(roundHalfEven q : ℚ) - q| ≤ 1/2 := by
  have h1 : ((⌊q⌋ : ℤ) : ℚ) ≤ q := Int.floor_le q
  have h2 : q < (⌊q⌋ : ℤ) + 1 := Int.lt_floor_add_one q
  unfold roundHalfEven
  split_ifs with ha hb hc
  · rw [abs_le]; constructor <;> linarith
  · rw [abs_le]; push_cast; constructor <;> linarith
  · rw [abs_le]
    have : q - ⌊q⌋ = 1/2 := le_antisymm (not_lt.mp hb) (not_lt.mp ha)
    constructor <;> linarith
  · rw [abs_le]
    have : q - ⌊q⌋ = 1/2 := le_antisymm (not_lt.mp hb) (not_lt.mp ha)
    push_cast
    constructor <;> linarith

/-- C4: the `bmi` value of `POST /api/calculate` is
`weight / (height/100)^2` rounded to one decimal place: at
`height = 165, weight = 55` it is exactly `20.2`, in general it is a
multiple of `1/10` within half a decimal unit of the exact quotient
(round-to-nearest with a half-way rule, Python's round-half-to-even). -/
theorem bmi_rounds_to_one_decimal :
    bmi 165 55 = 101/5 ∧
    (∀ h w : ℚ, |10 * bmi h w - 10 * (w / (h / 100) ^ 2)| ≤ 1/2) ∧
    (∀ h w : ℚ, ∃ z : ℤ, bmi h w = (z : ℚ) / 10) := by
  refine ⟨?_, ?_, ?_⟩
  · unfold bmi pyRound1 roundHalfEven
    norm_num [Int.floor_eq_iff]
  · intro h w
    have hc := roundHalfEven_close (10 * (w / (h / 100) ^ 2))
    unfold bmi pyRound1
    have h10 : (10 : ℚ) * ((roundHalfEven (10 * (w / (h / 100) ^ 2)) : ℚ) / 10) =
        (roundHalfEven (10 * (w / (h / 100) ^ 2)) : ℚ) := by ring
    rw [h10]
    exact hc
  · intro h w
    exact ⟨roundHalfEven (10 * (w / (h / 100) ^ 2)), rfl⟩

/-- C5 counterexample: a request whose height is `0` — strictly below
`100` — is rejected with the "incomplete data" message, not the
"unreasonable height" (`身高数据不合理`) one, because the completeness
check fires first. -/
theorem height_zero_gets_incomplete_message :
    (calculate Store.empty true 0 ⟨some "female", some 0, some 55, some 85, some 65, some 90⟩).1 =
      CalcResponse.badRequest "数据不完整" ∧
    CalcResponse.badRequest "数据不完整" ≠ CalcResponse.badRequest "身高数据不合理" ∧
    (0 : ℚ) < 100 := by
  refine ⟨rfl, by decide, by norm_num⟩

/-- C5 (amended): for an otherwise-valid request, the boundary heights
`100` and `250` are accepted and the request succeeds, while every
*non-zero* height strictly below `100` or strictly above `250` is rejected
with the "unreasonable height" (`身高数据不合理`) 400 error; a zero (or
absent) height is instead rejected as incomplete data. -/
theorem height_range_boundaries (db : Store) (now : Nat) (g : Option String)
    (hq wq bq wsq hpq : ℚ) (hw : wq ≠ 0) (hb : bq ≠ 0) (hws : wsq ≠ 0) (hhp : hpq ≠ 0) :
    ((hq = 100 ∨ hq = 250) →
      (calculate db true now ⟨g, some hq, some wq, some bq, some wsq, some hpq⟩).1.isOk = true) ∧
    (hq ≠ 0 → (hq < 100 ∨ 250 < hq) →
      (calculate db true now ⟨g, some hq, some wq, some bq, some wsq, some hpq⟩).1 =
        CalcResponse.badRequest "身高数据不合理") := by
  constructor
  · intro hcase
    have hq0 : hq ≠ 0 := by rcases hcase with rfl | rfl <;> norm_num
    have c1 : ¬ (hq = 0 ∨ wq = 0 ∨ bq = 0 ∨ wsq = 0 ∨ hpq = 0) := by
      push_neg; exact ⟨hq0, hw, hb, hws, hhp⟩
    have c2 : ¬ (hq < 100 ∨ hq > 250) := by
      push_neg; rcases hcase with rfl | rfl <;> constructor <;> norm_num
    unfold calculate
    simp only [Option.getD_some]
    rw [if_neg c1, if_neg c2]
    rfl
  · intro hq0 hcase
    have c1 : ¬ (hq = 0 ∨ wq = 0 ∨ bq = 0 ∨ wsq = 0 ∨ hpq = 0) := by
      push_neg; exact ⟨hq0, hw, hb, hws, hhp⟩
    unfold calculate
    simp only [Option.getD_some]
    rw [if_neg c1, if_pos hcase]

/-- C5 witness: height 100 is accepted, height 99 is rejected as
unreasonable. -/
theorem height_range_boundaries_witness :
    (calculate Store.empty true 0 ⟨some "female", some 100, some 55, some 85, some 65, some 90⟩).1.isOk = true ∧
    (calculate Store.empty true 0 ⟨some "female", some 99, some 55, some 85, some 65, some 90⟩).1 =
      CalcResponse.badRequest "身高数据不合理" :=
  ⟨(height_range_boundaries Store.empty 0 (some "female") 100 55 85 65 90
      (by norm_num) (by norm_num) (by norm_num) (by norm_num)).1 (Or.inl rfl),
   (height_range_boundaries Store.empty 0 (some "female") 99 55 85 65 90
      (by norm_num) (by norm_num) (by norm_num) (by norm_num)).2
      (by norm_num) (Or.inl (by norm_num))⟩

/-- C6: the 400 "incomplete data" (`数据不完整`) rejection happens exactly
when one of the five measurements is absent or zero; the gender field is
never part of this check and an absent gender behaves as the literal
`"female"`. -/
theorem incomplete_data_iff (db : Store) (dbOk : Bool) (now : Nat) (data : RequestData) :
    ((calculate db dbOk now data).1 = CalcResponse.badRequest "数据不完整" ↔
      (data.height.getD 0 = 0 ∨ data.weight.getD 0 = 0 ∨ data.bust.getD 0 = 0 ∨
        data.waist.getD 0 = 0 ∨ data.hips.getD 0 = 0)) ∧
    calculate db dbOk now { data with gender := none } =
      calculate db dbOk now { data with gender := some "female" } := by
  refine ⟨⟨?_, ?_⟩, ?_⟩
  · intro h
    by_contra hc
    unfold calculate at h
    rw [if_neg hc] at h
    split_ifs at h
    have h2 : CalcResponse.badRequest "身高数据不合理" = CalcResponse.badRequest "数据不完整" := h
    exact absurd h2 (by decide)
  · intro h
    unfold calculate
    rw [if_pos h]
  · rfl

/-- C6 witness: a request missing its height is rejected as incomplete. -/
theorem incomplete_data_iff_witness :
    (calculate Store.empty true 0 ⟨none, none, some 55, some 85, some 65, some 90⟩).1 =
      CalcResponse.badRequest "数据不完整" :=
  (incomplete_data_iff Store.empty true 0 ⟨none, none, some 55, some 85, some 65, some 90⟩).1.mpr
    (Or.inl rfl)

/-- C7: the hips measurement never influences the computed results — two
requests differing only in their non-zero hips value get identical
responses (same top size, bottom size, BMI, record id, or same error), and
hips is only copied verbatim into the stored record. -/
theorem hips_never_influences_results (db : Store) (dbOk : Bool) (now : Nat)
    (g : Option String) (oh ow ob ows : Option ℚ) (hp1 hp2 : ℚ)
    (h1 : hp1 ≠ 0) (h2 : hp2 ≠ 0) :
    (calculate db dbOk now ⟨g, oh, ow, ob, ows, some hp1⟩).1 =
      (calculate db dbOk now ⟨g, oh, ow, ob, ows, some hp2⟩).1 ∧
    ((calculate db dbOk now ⟨g, oh, ow, ob, ows, some hp1⟩).1.isOk = true →
      ∃ r : SizeRecord, r.hips = hp1 ∧
        (calculate db dbOk now ⟨g, oh, ow, ob, ows, some hp1⟩).2.records = db.records ++ [r]) := by
  unfold calculate
  simp only [Option.getD_some, h1, h2, or_false]
  split_ifs
  · exact ⟨rfl, fun hok => by simp [CalcResponse.isOk] at hok⟩
  · exact ⟨rfl, fun hok => by simp [CalcResponse.isOk] at hok⟩
  · exact ⟨rfl, fun _ => ⟨_, rfl, rfl⟩⟩
  · exact ⟨rfl, fun hok => by simp [CalcResponse.isOk] at hok⟩

/-- C7 witness: two concrete requests differing only in hips (90 vs 200)
get the same response. -/
theorem hips_never_influences_results_witness :
    (calculate Store.empty true 0 ⟨some "female", some 165, some 55, some 85, some 65, some 90⟩).1 =
      (calculate Store.empty true 0 ⟨some "female", some 165, some 55, some 85, some 65, some 200⟩).1 :=
  (hips_never_influences_results Store.empty true 0 (some "female") (some 165) (some 55)
    (some 85) (some 65) 90 200 (by norm_num) (by norm_num)).1

/-- C9: `POST /api/calculate` is atomic — every error response (400
validation failure or 500 database failure) leaves the store exactly as it
was before the request. -/
theorem calculate_atomic (db : Store) (dbOk : Bool) (now : Nat) (data : RequestData)
    (h : (calculate db dbOk now data).1.isError = true) :
    (calculate db dbOk now data).2 = db := by
  unfold calculate at h ⊢
  split_ifs at h ⊢ <;> simp_all [CalcResponse.isError]

/-- C9 witness: an empty-body request errors and the store is unchanged. -/
theorem calculate_atomic_witness :
    (calculate Store.empty true 0 ⟨none, none, none, none, none, none⟩).2 = Store.empty :=
  calculate_atomic Store.empty true 0 ⟨none, none, none, none, none, none⟩ rfl

set_option maxHeartbeats 1600000 in
/-- C10: bust and waist see no validation beyond the non-zero check:
`calculate_size` always returns labels from the fixed size set, any
negative bust or waist lands in the smallest band (`XS` for female, `S`
otherwise), and a request carrying such values (with a valid height and
all five measurements non-zero) succeeds end to end, persisting the record
with the bust and waist stored as given. -/
theorem no_bust_waist_range_validation (db : Store) (now : Nat) (g : String)
    (b w hq wq hp : ℚ) (hb : b ≠ 0) (hwz : w ≠ 0) (hh1 : 100 ≤ hq) (hh2 : hq ≤ 250)
    (hwq : wq ≠ 0) (hhp : hp ≠ 0) :
    ((calculate_size g b w).1 ∈ (["XS", "S", "M", "L", "XL", "XXL"] : List String) ∧
      (calculate_size g b w).2 ∈ (["XS", "S", "M", "L", "XL", "XXL"] : List String)) ∧
    (b < 0 → (calculate_size g b w).1 = if g = "female" then "XS" else "S") ∧
    (w < 0 → (calculate_size g b w).2 = if g = "female" then "XS" else "S") ∧
    ((calculate db true now ⟨some g, some hq, some wq, some b, some w, some hp⟩).1.isOk = true ∧
      ∃ r : SizeRecord,
        (calculate db true now ⟨some g, some hq, some wq, some b, some w, some hp⟩).2.records =
          db.records ++ [r] ∧ r.bust = b ∧ r.waist = w) := by
  refine ⟨⟨?_, ?_⟩, ?_, ?_, ?_⟩
  · unfold calculate_size; split_ifs <;> decide
  · unfold calculate_size; split_ifs <;> decide
  · intro hneg
    have h80 : b < 80 := by linarith
    have h88 : b < 88 := by linarith
    unfold calculate_size
    by_cases hg : g = "female" <;> simp [hg, h80, h88]
  · intro hneg
    have h60 : w < 60 := by linarith
    have h72 : w < 72 := by linarith
    unfold calculate_size
    by_cases hg : g = "female" <;> simp [hg, h60, h72]
  · have c1 : ¬ (hq = 0 ∨ wq = 0 ∨ b = 0 ∨ w = 0 ∨ hp = 0) := by
      push_neg
      exact ⟨by intro hz; rw [hz] at hh1; norm_num at hh1, hwq, hb, hwz, hhp⟩
    have c2 : ¬ (hq < 100 ∨ hq > 250) := by push_neg; exact ⟨hh1, hh2⟩
    unfold calculate
    simp only [Option.getD_some]
    rw [if_neg c1, if_neg c2]
    exact ⟨rfl, ⟨_, rfl, rfl, rfl⟩⟩

/-- C10 witness: negative bust and waist (and hips) classify into the
smallest male band and the request succeeds. -/
theorem no_bust_waist_range_validation_witness :
    (calculate_size "other" (-5) (-3)).1 = "S" ∧
    (calculate Store.empty true 7 ⟨some "other", some 170, some 60, some (-5), some (-3), some (-2)⟩).1.isOk = true := by
  have h := no_bust_waist_range_validation Store.empty 7 "other" (-5) (-3) 170 60 (-2)
    (by norm_num) (by norm_num) (by norm_num) (by norm_num) (by norm_num) (by norm_num)
  refine ⟨?_, h.2.2.2.1⟩
  have h1 := h.2.1 (by norm_num)
  simpa using h1

/-- Two rows sharing a `created_at`, inserted A (id 1) before B (id 2). -/
def tieRecA : SizeRecord := ⟨1, "female", 165, 55, 85, 65, 90, "M", "M", 20, 5⟩

/-- The second of the two tied rows. -/
def tieRecB : SizeRecord := ⟨2, "female", 165, 55, 85, 65, 90, "M", "M", 20, 5⟩

/-- A store holding the two tied rows. -/
def tieStore : Store := ⟨[tieRecA, tieRecB], 3⟩

/-- C3 (amended): `GET /api/records` returns at most 20 stored records,
ordered by `created_at` descending; every stored record it omits has
`created_at` no later than every returned one.  The query has no `id`
tie-break, so records sharing a `created_at` are *not* ordered id
descending — in the store model they surface in insertion order. -/
theorem get_records_spec (db : Store) :
    (get_records db).length ≤ 20 ∧
    List.Sorted recGE (get_records db) ∧
    (∀ s ∈ get_records db, s ∈ db.records) ∧
    (∀ r ∈ db.records, r ∉ get_records db →
      ∀ s ∈ get_records db, r.created_at ≤ s.created_at) := by
  refine ⟨?_, ?_, ?_, ?_⟩
  · simp only [get_records, List.length_take]
    exact min_le_left _ _
  · exact List.Pairwise.sublist (List.take_sublist _ _) (List.sorted_insertionSort recGE _)
  · intro s hs
    exact (List.perm_insertionSort recGE db.records).mem_iff.mp (List.take_subset _ _ hs)
  · intro r hr hnot s hs
    simp only [get_records] at hnot hs
    have hrL : r ∈ db.records.insertionSort recGE :=
      (List.perm_insertionSort recGE db.records).mem_iff.mpr hr
    have hpair : List.Pairwise recGE (db.records.insertionSort recGE) :=
      List.sorted_insertionSort recGE db.records
    rw [← List.take_append_drop 20 (db.records.insertionSort recGE)] at hrL hpair
    rw [List.pairwise_append] at hpair
    rcases List.mem_append.mp hrL with hmem | hmem
    · exact absurd hmem hnot
    · exact hpair.2.2 s hs r hmem

/-- C3 witness: on a concrete store the limit holds and a returned record
is a stored one. -/
theorem get_records_spec_witness :
    (get_records tieStore).length ≤ 20 ∧ tieRecA ∈ tieStore.records :=
  ⟨(get_records_spec tieStore).1,
   (get_records_spec tieStore).2.2.1 tieRecA (by decide)⟩

/-- C3 counterexample: two rows share a `created_at`; `GET /api/records`
returns them in insertion (id-ascending) order `[id 1, id 2]`, not the
claimed id-descending order, because `ORDER BY created_at DESC` carries no
id tie-break. -/
theorem get_records_tie_not_id_descending :
    get_records tieStore = [tieRecA, tieRecB] ∧
    tieRecA.created_at = tieRecB.created_at ∧
    tieRecA.id < tieRecB.id :=
  ⟨rfl, rfl, by decide⟩

/-- Inserting a row whose `created_at` beats every existing row's sorts it
to the front. -/
theorem insertionSort_append_newest (l : List SizeRecord) (a : SizeRecord)
    (h : ∀ x ∈ l, ¬ recGE x a) :
    List.insertionSort recGE (l ++ [a]) = a :: List.insertionSort recGE l := by
  induction l with
  | nil => rfl
  | cons x l ih =>
      have hx : ¬ recGE x a := h x (List.mem_cons_self x l)
      have ih2 := ih fun y hy => h y (List.mem_cons_of_mem x hy)
      show List.orderedInsert recGE x (List.insertionSort recGE (l ++ [a])) =
        a :: List.insertionSort recGE (x :: l)
      rw [ih2]
      simp only [List.orderedInsert, if_neg hx, List.insertionSort]

/-- C2 (amended): when a successful `POST /api/calculate` carries a
`created_at` strictly later than every stored record's, the first record
of a subsequent `GET /api/records` is exactly the persisted one: every
stored field equals the submitted inputs and computed outputs, and its id
is the `record_id` the calculate response reported. -/
theorem calculate_then_get_roundtrip (db : Store) (now : Nat) (data : RequestData)
    (hlate : ∀ r ∈ db.records, r.created_at < now)
    (t b : String) (m : ℚ) (i : Nat)
    (hok : (calculate db true now data).1 = CalcResponse.ok t b m i) :
    (get_records (calculate db true now data).2).head? =
      some ⟨i, data.gender.getD "female", data.height.getD 0, data.weight.getD 0,
        data.bust.getD 0, data.waist.getD 0, data.hips.getD 0, t, b, m, now⟩ := by
  unfold calculate at hok ⊢
  split_ifs at hok ⊢
  injection hok with e1 e2 e3 e4
  subst e1; subst e2; subst e3; subst e4
  unfold get_records
  dsimp only
  rw [insertionSort_append_newest db.records _
    (fun x hx => Nat.not_le.mpr (hlate x hx))]
  rfl

/-- C2 witness: one insert into the empty store at time 3 is read back in
full by the next `GET /api/records`. -/
theorem calculate_then_get_roundtrip_witness :
    (get_records (calculate Store.empty true 3 demoData1).2).head? =
      some ⟨1, "female", 165, 55, 85, 65, 90, "M", "M", bmi 165 55, 3⟩ :=
  calculate_then_get_roundtrip Store.empty 3 demoData1 (by simp [Store.empty]) "M" "M"
    (bmi 165 55) 1 rfl

/-- A pre-existing row; all twenty crowd rows share `created_at = 5`. -/
def crowdRec (i : Nat) : SizeRecord := ⟨i + 1, "female", 165, 55, 85, 65, 90, "M", "M", 20, 5⟩

/-- Twenty rows all stamped `5`, next id 21. -/
def crowdStore : Store := ⟨(List.range 20).map crowdRec, 21⟩

/-- C2 counterexample: with twenty stored rows sharing the new row's
`created_at`, the calculate response reports `record_id = 21`, yet the
subsequent `GET /api/records` (capped at 20 and ordered only by
`created_at`) does not return the newly persisted row. -/
theorem roundtrip_fails_on_timestamp_tie :
    (calculate crowdStore true 5 demoData1).1.recordId = some 21 ∧
    21 ∉ ((get_records (calculate crowdStore true 5 demoData1).2).map SizeRecord.id) :=
  ⟨rfl, by decide⟩

/-- Reachable stores keep every row id below `nextId`, and ids strictly
increase along insertion order. -/
theorem reachable_ids_invariant (db : Store) (h : Reachable db) :
    (∀ r ∈ db.records, r.id < db.nextId) ∧
    List.Pairwise (fun a b => a.id < b.id) db.records := by
  induction h with
  | empty => exact ⟨by simp [Store.empty], by simp [Store.empty]⟩
  | step db dbOk now data hdb ih =>
      unfold calculate
      split_ifs
      · exact ih
      · exact ih
      · dsimp only
        refine ⟨?_, ?_⟩
        · intro r hr
          rcases List.mem_append.mp hr with hmem | hmem
          · exact Nat.lt_succ_of_lt (ih.1 r hmem)
          · rw [List.mem_singleton] at hmem
            subst hmem
            exact Nat.lt_succ_self _
        · rw [List.pairwise_append]
          refine ⟨ih.2, List.pairwise_singleton _ _, ?_⟩
          intro a ha c hc
          rw [List.mem_singleton] at hc
          subst hc
          exact ih.1 a ha
      · exact ih

/-- C8: persisted records have all eleven fields present (total by
construction: every column is `NOT NULL` and the `INSERT` supplies each),
and in every reachable store the row ids strictly increase in insertion
order, hence are unique. -/
theorem record_ids_strictly_increasing (db : Store) (h : Reachable db) :
    List.Pairwise (fun a b => a.id < b.id) db.records ∧
    (db.records.map SizeRecord.id).Nodup := by
  refine ⟨(reachable_ids_invariant db h).2, ?_⟩
  have hp : List.Pairwise (· < ·) (db.records.map SizeRecord.id) := by
    rw [List.pairwise_map]
    exact (reachable_ids_invariant db h).2
  exact hp.imp Nat.ne_of_lt

/-- C8 witness: after two successful inserts from the empty store the ids
strictly increase and are distinct. -/
theorem record_ids_strictly_increasing_witness :
    List.Pairwise (fun a b => a.id < b.id)
      ((calculate (calculate Store.empty true 1 demoData1).2 true 2 demoData2).2).records ∧
    (((calculate (calculate Store.empty true 1 demoData1).2 true 2 demoData2).2).records.map
        SizeRecord.id).Nodup :=
  record_ids_strictly_increasing _
    (Reachable.step _ true 2 demoData2 (Reachable.step _ true 1 demoData1 Reachable.empty))

end SizeCalc
